import Mathlib

/-!
# Verification of an LC-3 virtual machine (Rust)

Shallow embedding of the LC-3 VM core from the repository `iammadab/lc3`:
`src/vm.rs` (machine state, execution loop, `sext`, `update_flags`),
`src/opcodes.rs` (opcode handlers, trap services, `mask`) and
`src/main.rs` (object loader `read_u16` / load loop).

Machine integers are modelled as `Nat` with explicit `% 65536` where the
Rust `u16` type wraps.  The handlers' `+` on `u16` is embedded with the
wrap-around result (`(a + b) % 65536`, the non-overflow-checked codegen);
the overflow-checked behaviour of the default debug profile, where `+`
and `<<` abort on overflow, is embedded separately by the `...Checked`
definitions, which return `none` exactly where the checked operation
aborts.  Console I/O is made explicit: the state carries the list of
pending input bytes and the list of bytes written so far.
-/

namespace LC3

/-- `pub const MEMORY_SIZE: usize = 1 << 16;` (src/vm.rs). -/
def MEMORY_SIZE : Nat := 1 <<< 16

/-- `pub const REGISTER_COUNT: usize = 10;` (src/vm.rs). -/
def REGISTER_COUNT : Nat := 10

/-- `const MR_KBSR: u16 = 0xFE00;` keyboard status register (src/vm.rs). -/
def MR_KBSR : Nat := 0xFE00

/-- `const MR_KBDR: u16 = 0xFE02;` keyboard data register (src/vm.rs). -/
def MR_KBDR : Nat := 0xFE02

/-- The Rust expression `MEMORY_SIZE as u16` (used as the bound of the
`trap_puts` / `trap_putsp` loops in src/opcodes.rs): an `as` cast
truncates, so `65536 as u16 = 0`. -/
def memSizeU16 : Nat := MEMORY_SIZE % 65536

/-- `fn mask(n: u8) -> u16 { (1 << n) - 1 }` (src/opcodes.rs), for the
shift amounts the program actually uses (`n < 16`, where the shift is
well defined on `u16`). -/
def mask (n : Nat) : Nat := (1 <<< n) - 1

/-- `mask` under the overflow-checked (debug-profile) semantics of the
Rust `<<` operator on `u16`: a shift amount of 16 or more aborts, which
is modelled by `none`. -/
def maskChecked (n : Nat) : Option Nat :=
  if n < 16 then some ((1 <<< n) - 1) else none

/-- `pub fn sext(val: u16, bit_count: usize) -> u16` (src/vm.rs): if the
sign bit `val >> (bit_count - 1)` is 1, pad the high side with ones via
`val | (0xffff << bit_count)`.  Embedded for the widths the handlers use
(`bit_count ∈ {5, 6, 9, 11}`, all below 16), with the `u16` truncation
of the shift made explicit. -/
def sext (val bitCount : Nat) : Nat :=
  if val >>> (bitCount - 1) = 1 then
    (val ||| (0xffff <<< bitCount)) % 65536
  else
    val

/-- `sext` under the overflow-checked (debug-profile) semantics: the
shifts `val >> (bit_count - 1)` and `0xffff << bit_count` abort when the
shift amount reaches 16 (and `bit_count - 1` underflows at 0), modelled
by `none`. -/
def sextChecked (val bitCount : Nat) : Option Nat :=
  if bitCount = 0 then none
  else if 16 ≤ bitCount - 1 then none
  else if val >>> (bitCount - 1) = 1 then
    if 16 ≤ bitCount then none
    else some ((val ||| (0xffff <<< bitCount)) % 65536)
  else some val

/-- The Rust `+` on `u16` under the overflow-checked (default debug
profile) semantics: an overflowing sum aborts, modelled by `none`. -/
def checkedAdd (a b : Nat) : Option Nat :=
  if a + b < 65536 then some (a + b) else none

/-- Machine state of `struct VM` (src/vm.rs), with the console made
explicit: `memory` is the 2^16-cell word array (total function over
addresses), `registers` the 10-entry register file (list, so that an
out-of-bounds register index is observable), `running` the loop flag;
`input` is the queue of console bytes not yet read, `output` the bytes
written to the console so far. -/
structure VMState where
  memory : Nat → Nat
  registers : List Nat
  running : Bool
  input : List Nat
  output : List Nat

/-- Result of executing one decoded instruction: `ok` is a normal state
update; `exit c s` is `std::process::exit(c)` reached with machine state
`s`; `panicOob` is an out-of-bounds register-file index (Rust index
panic); `panicUnused` is `panic!("unused")` on RTI/RES;
`panicBadTrap` is the `unreachable!()` arm for an unknown trap code;
`noInput` is a console read with no pending byte (blocked `stdin` read
or failed `unwrap` on end of input). -/
inductive StepResult where
  | ok : VMState → StepResult
  | exit : Nat → VMState → StepResult
  | panicOob : StepResult
  | panicUnused : StepResult
  | panicBadTrap : StepResult
  | noInput : StepResult

/-- The state carried by a normal (`ok`) result, if any. -/
def StepResult.okState : StepResult → Option VMState
  | .ok s => some s
  | _ => none

/-- The exit code of an `exit` result, if any. -/
def StepResult.exitCode : StepResult → Option Nat
  | .exit c _ => some c
  | _ => none

/-- `fn reg(&self, addr: u16) -> u16` (src/vm.rs): register-file read
`self.registers[addr as usize]`; an index past the end is a Rust panic,
modelled by `none`. -/
def regGet (s : VMState) (addr : Nat) : Option Nat :=
  s.registers.get? addr

/-- `fn reg_mut(&mut self, addr: u16)` followed by a store (src/vm.rs):
register-file write; an index past the end is a Rust panic, modelled by
`none`. -/
def regSet (s : VMState) (addr v : Nat) : Option VMState :=
  if addr < s.registers.length then
    some { s with registers := s.registers.set addr v }
  else
    none

/-- `fn mem(&self, addr: u16) -> u16` (src/vm.rs): a plain array lookup
`self.memory[addr as usize]` for every address — the source does not
special-case `MR_KBSR`/`MR_KBDR`.  A `u16` index is always within the
2^16-cell array, so the lookup is total. -/
def VMState.mem (s : VMState) (addr : Nat) : Nat :=
  s.memory addr

/-- `fn mem_mut(&mut self, addr: u16)` followed by a store (src/vm.rs):
plain array store for every address. -/
def memWrite (s : VMState) (addr v : Nat) : VMState :=
  { s with memory := fun a => if a = addr then v else s.memory a }

/-- `pub fn update_flags(vm: &mut VM, register_addr: u16)` (src/vm.rs):
sets `COND` (register 9) to `ZERO = 2` if the value is 0, `NEG = 4` if
its bit 15 is set, else `POSITIVE = 1` (the `Flags` enum values). -/
def update_flags (s : VMState) (registerAddr : Nat) : Option VMState := do
  let v ← regGet s registerAddr
  let cond := if v = 0 then 2 else if v >>> 15 = 1 then 4 else 1
  regSet s 9 cond

/-! ## Opcode handlers (src/opcodes.rs)

Each handler takes the raw 16-bit instruction word and extracts its own
fields, exactly as in `src/opcodes.rs`.  Additions on `u16` are embedded
with the wrapped result `% 65536`. -/

/-- `fn add_opcode(vm: &mut VM, instruction: u16)`: register mode
`R[dr] = R[sr1] + R[sr2]`, immediate mode `R[dr] = R[sr1] + sext(imm5)`,
selected by bit 5; flags updated on `dr`. -/
def add_opcode (s : VMState) (instruction : Nat) : Option VMState := do
  let dr := (instruction >>> 9) &&& mask 3
  let sr1 := (instruction >>> 6) &&& mask 3
  let immFlag := (instruction >>> 5) &&& mask 1
  let s1 ←
    if immFlag = 1 then do
      let imm5 := sext (instruction &&& mask 5) 5
      let v ← regGet s sr1
      regSet s dr ((v + imm5) % 65536)
    else do
      let sr2 := instruction &&& mask 3
      let v1 ← regGet s sr1
      let v2 ← regGet s sr2
      regSet s dr ((v1 + v2) % 65536)
  update_flags s1 dr

/-- `add_opcode` under the overflow-checked (debug-profile) semantics of
the Rust `+` on `u16`: the sums go through `checkedAdd`, so an
overflowing addition aborts (`none`) instead of wrapping. -/
def add_opcode_checked (s : VMState) (instruction : Nat) : Option VMState := do
  let dr := (instruction >>> 9) &&& mask 3
  let sr1 := (instruction >>> 6) &&& mask 3
  let immFlag := (instruction >>> 5) &&& mask 1
  let s1 ←
    if immFlag = 1 then do
      let imm5 := sext (instruction &&& mask 5) 5
      let v ← regGet s sr1
      let sum ← checkedAdd v imm5
      regSet s dr sum
    else do
      let sr2 := instruction &&& mask 3
      let v1 ← regGet s sr1
      let v2 ← regGet s sr2
      let sum ← checkedAdd v1 v2
      regSet s dr sum
  update_flags s1 dr

/-- `fn ldi_opcode`: `R[dr] = MEM[MEM[pc_offset + PC]]`; flags on `dr`. -/
def ldi_opcode (s : VMState) (instruction : Nat) : Option VMState := do
  let dr := (instruction >>> 9) &&& mask 3
  let pcOffset := sext (instruction &&& mask 9) 9
  let pc ← regGet s 8
  let pointerAddr := (pcOffset + pc) % 65536
  let s1 ← regSet s dr (s.mem (s.mem pointerAddr))
  update_flags s1 dr

/-- `fn br_opcode`: if `(nzp & R[COND]) != 0` then `R[PC] += pc_offset`. -/
def br_opcode (s : VMState) (instruction : Nat) : Option VMState := do
  let expectedCond := (instruction >>> 9) &&& mask 3
  let pcOffset := sext (instruction &&& mask 9) 9
  let condState ← regGet s 9
  if expectedCond &&& condState ≠ 0 then do
    let pc ← regGet s 8
    regSet s 8 ((pc + pcOffset) % 65536)
  else
    some s

/-- `fn ld_opcode`: `R[dr] = MEM[pc_offset + PC]`; flags on `dr`. -/
def ld_opcode (s : VMState) (instruction : Nat) : Option VMState := do
  let dr := (instruction >>> 9) &&& mask 3
  let pcOffset := sext (instruction &&& mask 9) 9
  let pc ← regGet s 8
  let s1 ← regSet s dr (s.mem ((pcOffset + pc) % 65536))
  update_flags s1 dr

/-- `fn ldr_opcode`: `R[dr] = MEM[R[base] + base_offset]`; flags on `dr`. -/
def ldr_opcode (s : VMState) (instruction : Nat) : Option VMState := do
  let dr := (instruction >>> 9) &&& mask 3
  let base := (instruction >>> 6) &&& mask 3
  let baseOffset := sext (instruction &&& mask 6) 6
  let bv ← regGet s base
  let memAddr := (bv + baseOffset) % 65536
  let s1 ← regSet s dr (s.mem memAddr)
  update_flags s1 dr

/-- `fn lea_opcode`: `R[dr] = R[PC] + pc_offset`; flags on `dr`. -/
def lea_opcode (s : VMState) (instruction : Nat) : Option VMState := do
  let dr := (instruction >>> 9) &&& mask 3
  let pcOffset := sext (instruction &&& mask 9) 9
  let pc ← regGet s 8
  let s1 ← regSet s dr ((pc + pcOffset) % 65536)
  update_flags s1 dr

/-- `fn st_opcode`: `MEM[R[PC] + pc_offset] = R[sr]` (no flag update). -/
def st_opcode (s : VMState) (instruction : Nat) : Option VMState := do
  let sr := (instruction >>> 9) &&& mask 3
  let pcOffset := sext (instruction &&& mask 9) 9
  let pc ← regGet s 8
  let v ← regGet s sr
  some (memWrite s ((pc + pcOffset) % 65536) v)

/-- `fn sti_opcode`: `MEM[MEM[pc_offset + R[PC]]] = R[sr]` (no flags). -/
def sti_opcode (s : VMState) (instruction : Nat) : Option VMState := do
  let sr := (instruction >>> 9) &&& mask 3
  let pcOffset := sext (instruction &&& mask 9) 9
  let pc ← regGet s 8
  let pointerAddr := (pcOffset + pc) % 65536
  let v ← regGet s sr
  some (memWrite s (s.mem pointerAddr) v)

/-- `fn str_opcode`: `MEM[R[base] + base_offset] = R[sr]` (no flags). -/
def str_opcode (s : VMState) (instruction : Nat) : Option VMState := do
  let sr := (instruction >>> 9) &&& mask 3
  let base := (instruction >>> 6) &&& mask 3
  let baseOffset := sext (instruction &&& mask 6) 6
  let bv ← regGet s base
  let memAddr := (bv + baseOffset) % 65536
  let v ← regGet s sr
  some (memWrite s memAddr v)

/-- `fn and_opcode`: bitwise and, register or immediate mode by bit 5;
flags on `dr`. -/
def and_opcode (s : VMState) (instruction : Nat) : Option VMState := do
  let dr := (instruction >>> 9) &&& mask 3
  let sr1 := (instruction >>> 6) &&& mask 3
  let immFlag := (instruction >>> 5) &&& mask 1
  let s1 ←
    if immFlag = 1 then do
      let imm5 := sext (instruction &&& mask 5) 5
      let v ← regGet s sr1
      regSet s dr (v &&& imm5)
    else do
      let sr2 := instruction &&& mask 3
      let v1 ← regGet s sr1
      let v2 ← regGet s sr2
      regSet s dr (v1 &&& v2)
  update_flags s1 dr

/-- `fn not_opcode` as written in src/opcodes.rs:
`let sr = (instruction >> 6) & mask(3); *vm.reg_mut(dr) = !sr;` — the
`u16` bitwise complement is applied to the register *index* `sr`, not to
the register's contents; then flags on `dr`. -/
def not_opcode (s : VMState) (instruction : Nat) : Option VMState := do
  let dr := (instruction >>> 9) &&& mask 3
  let sr := (instruction >>> 6) &&& mask 3
  let s1 ← regSet s dr (sr ^^^ 65535)
  update_flags s1 dr

/-- `fn jmp_opcodee`: `R[PC] = R[base]`. -/
def jmp_opcodee (s : VMState) (instruction : Nat) : Option VMState := do
  let base := (instruction >>> 6) &&& mask 3
  let v ← regGet s base
  regSet s 8 v

/-- `fn jsr_opcode`: `R[R7] = R[PC]`; then by bit 11 either
`R[PC] += sext(offset11)` (JSR) or `R[PC] = R[base]` (JSRR). -/
def jsr_opcode (s : VMState) (instruction : Nat) : Option VMState := do
  let pc ← regGet s 8
  let s1 ← regSet s 7 pc
  let mode := (instruction >>> 11) &&& mask 1
  if mode = 1 then do
    let pcOffset := sext (instruction &&& mask 11) 11
    let pc1 ← regGet s1 8
    regSet s1 8 ((pc1 + pcOffset) % 65536)
  else do
    let base := (instruction >>> 6) &&& mask 3
    let v ← regGet s1 base
    regSet s1 8 v

/-! ## Trap service routines (src/opcodes.rs) -/

/-- The loop of `fn trap_puts`, as written:
`while mem_addr < MEMORY_SIZE as u16 { ... }` with a break on a zero
cell, printing each cell's low byte (`data as u8 as char`).  The bound
`MEMORY_SIZE as u16` truncates to `memSizeU16 = 0`, so the guard is
`mem_addr < 0`.  The wrapped `mem_addr += 1` is `% 65536`. -/
def putsLoop (m : Nat → Nat) (memAddr : Nat) : List Nat :=
  if h : memAddr < memSizeU16 then
    let data := m memAddr
    if data = 0 then []
    else (data &&& 255) :: putsLoop m ((memAddr + 1) % 65536)
  else []
termination_by memSizeU16 - memAddr
decreasing_by
  simp [memSizeU16, MEMORY_SIZE] at h

/-- The loop of `fn trap_putsp`, as written: same truncated bound, no
break; each cell contributes `data & mask(8)` then `data >> 8`. -/
def putspLoop (m : Nat → Nat) (memAddr : Nat) : List Nat :=
  if h : memAddr < memSizeU16 then
    let data := m memAddr
    (data &&& mask 8) :: (data >>> 8) :: putspLoop m ((memAddr + 1) % 65536)
  else []
termination_by memSizeU16 - memAddr
decreasing_by
  simp [memSizeU16, MEMORY_SIZE] at h

/-- Lift an `Option`-valued handler result to a `StepResult`: `none`
(register index out of bounds) becomes the index panic. -/
def liftStep : Option VMState → StepResult
  | some s => .ok s
  | none => .panicOob

/-- `fn trap_get_c`: `let mut buffer = [0, 1];` is a two-element buffer,
so `read_exact` consumes two console bytes; `buffer[0]` is stored in
`R0` and flags are updated on `R0`. -/
def trap_get_c (s : VMState) : StepResult :=
  match s.input with
  | b0 :: _ :: rest =>
    liftStep (do
      let s1 ← regSet { s with input := rest } 0 b0
      update_flags s1 0)
  | _ => .noInput

/-- `fn trap_out`: `println!` writes the low byte of `R0` as a character
followed by a newline. -/
def trap_out (s : VMState) : Option VMState := do
  let v ← regGet s 0
  some { s with output := s.output ++ [v &&& 255, 10] }

/-- `fn trap_puts`: starting at `R0`, run `putsLoop` and append its
bytes to the console output. -/
def trap_puts (s : VMState) : Option VMState := do
  let r0 ← regGet s 0
  some { s with output := s.output ++ putsLoop s.memory r0 }

/-- The bytes of the prompt string `"Enter a character: "`. -/
def promptBytes : List Nat :=
  [69, 110, 116, 101, 114, 32, 97, 32, 99, 104, 97, 114, 97, 99, 116,
   101, 114, 58, 32]

/-- `fn trap_in`, as written: print the prompt, read one byte, store it
in `R0`.  The byte is not echoed and `update_flags` is not called. -/
def trap_in (s : VMState) : StepResult :=
  let s1 := { s with output := s.output ++ promptBytes }
  match s1.input with
  | b :: rest => liftStep (regSet { s1 with input := rest } 0 b)
  | [] => .noInput

/-- `fn trap_putsp`: starting at `R0`, run `putspLoop` and append its
bytes to the console output. -/
def trap_putsp (s : VMState) : Option VMState := do
  let r0 ← regGet s 0
  some { s with output := s.output ++ putspLoop s.memory r0 }

/-- `fn trap_halt { std::process::exit(0); }`: the process terminates
immediately with exit code 0; the machine state (including the
`running` flag) is not modified. -/
def trap_halt (s : VMState) : StepResult :=
  StepResult.exit 0 s

/-- `fn trap_opcode`: dispatch on the low 8 bits; an unknown trap code
is `unreachable!()`. -/
def trap_opcode (s : VMState) (instruction : Nat) : StepResult :=
  match instruction &&& mask 8 with
  | 0x20 => trap_get_c s
  | 0x21 => liftStep (trap_out s)
  | 0x22 => liftStep (trap_puts s)
  | 0x23 => trap_in s
  | 0x24 => liftStep (trap_putsp s)
  | 0x25 => trap_halt s
  | _ => StepResult.panicBadTrap

/-! ## Execution loop (src/vm.rs) -/

/-- The dispatch of `VM::run` on the decoded opcode (the high 4 bits of
the instruction word; for a `u16` word the value is in `0..=15`, and
`Opcode::try_from` accepts exactly those).  `RTI` (8) and `RES` (13)
are `panic!("unused")`.  The final arm is `TRAP` (15). -/
def execute (s : VMState) (instruction : Nat) : StepResult :=
  match instruction >>> 12 with
  | 0 => liftStep (br_opcode s instruction)
  | 1 => liftStep (add_opcode s instruction)
  | 2 => liftStep (ld_opcode s instruction)
  | 3 => liftStep (st_opcode s instruction)
  | 4 => liftStep (jsr_opcode s instruction)
  | 5 => liftStep (and_opcode s instruction)
  | 6 => liftStep (ldr_opcode s instruction)
  | 7 => liftStep (str_opcode s instruction)
  | 8 => StepResult.panicUnused
  | 9 => liftStep (not_opcode s instruction)
  | 10 => liftStep (ldi_opcode s instruction)
  | 11 => liftStep (sti_opcode s instruction)
  | 12 => liftStep (jmp_opcodee s instruction)
  | 13 => StepResult.panicUnused
  | 14 => liftStep (lea_opcode s instruction)
  | _ => trap_opcode s instruction

/-- One iteration of the `while self.running` loop of `VM::run`: fetch
`MEM[PC]` (a plain array read, like every memory access), increment
`PC` (wrapping), and dispatch on the opcode. -/
def step (s : VMState) : StepResult :=
  match regGet s 8 with
  | none => StepResult.panicOob
  | some pc =>
    let instruction := s.mem pc
    match regSet s 8 ((pc + 1) % 65536) with
    | none => StepResult.panicOob
    | some s1 => execute s1 instruction

/-- `VM::init()`: zero-filled memory and registers, `running = false`;
the console starts with no pending input and no output. -/
def initState : VMState :=
  { memory := fun _ => 0
    registers := List.replicate 10 0
    running := false
    input := []
    output := [] }

/-- Well-formed machine state: the register file has exactly
`REGISTER_COUNT = 10` entries, as in `struct VM`. -/
def WF (s : VMState) : Prop :=
  s.registers.length = REGISTER_COUNT

/-! ## Object loader (src/main.rs) -/

/-- `fn read_u16`: read two bytes and combine them big-endian
(`u16::from_be_bytes`).  Fewer than two bytes remaining is
`ErrorKind::UnexpectedEof` from `read_exact`, modelled by `none` —
note that a single trailing byte produces the same error value as a
clean end of stream. -/
def read_u16 : List Nat → Option (Nat × List Nat)
  | b1 :: b2 :: rest => some (b1 * 256 + b2, rest)
  | _ => none

/-- The load loop of `main`: keep reading big-endian words until
`read_u16` errors; every error (clean end of stream or a trailing odd
byte alike) ends the loop, which then reports success. -/
def loadWords : List Nat → List Nat
  | b1 :: b2 :: rest => (b1 * 256 + b2) :: loadWords rest
  | _ => []

/-- The loader of `main`: the first word (`read_u16(..).unwrap()`) is
the origin — the `unwrap` aborts the process (non-zero exit) when the
stream has fewer than two bytes, modelled by `none`; the remaining
words are collected by the load loop, which treats any end of stream as
success. -/
def load (bytes : List Nat) : Option (Nat × List Nat) := do
  let (origin, rest) ← read_u16 bytes
  some (origin, loadWords rest)

/-! ## Concrete machine states used as test inputs -/

/-- State with `R1 = 0x1234` (NOT test): all other cells zero. -/
def stateNot : VMState :=
  { memory := fun _ => 0
    registers := [0, 0x1234, 0, 0, 0, 0, 0, 0, 0, 0]
    running := true
    input := []
    output := [] }

/-- State for the PUTS scenario of the spec: `R0 = 0x3000` and
`MEM[0x3000..] = 'H', 'i', 0`. -/
def statePuts : VMState :=
  { memory := fun a => if a = 0x3000 then 72 else if a = 0x3001 then 105 else 0
    registers := [0x3000, 0, 0, 0, 0, 0, 0, 0, 0, 0]
    running := true
    input := []
    output := [] }

/-- State for the IN trap: `COND = ZERO (2)` and one pending console
byte `0x41` (letter A). -/
def stateIn : VMState :=
  { memory := fun _ => 0
    registers := [0, 0, 0, 0, 0, 0, 0, 0, 0, 2]
    running := true
    input := [65]
    output := [] }

/-- State for the KBSR read: `PC = 0xFE00` so an `LD` with offset 0
reads the keyboard status address while a key (byte 65) is pending. -/
def stateKbsr : VMState :=
  { memory := fun _ => 0
    registers := [0, 0, 0, 0, 0, 0, 0, 0, 0xFE00, 0]
    running := true
    input := [65]
    output := [] }

/-- State for the HALT trap: mid-run (`running = true`). -/
def stateHalt : VMState :=
  { memory := fun _ => 0
    registers := [0, 0, 0, 0, 0, 0, 0, 0, 0x3001, 0]
    running := true
    input := []
    output := [] }

/-- State with `R3 = 0xFFFF` and `R4 = 1`, whose mathematical sum
overflows 16 bits. -/
def stateAddOvf : VMState :=
  { memory := fun _ => 0
    registers := [0, 0, 0, 0xFFFF, 1, 0, 0, 0, 0, 0]
    running := true
    input := []
    output := [] }

/-- Initial-style state reachable right after loading: `PC = 0x3000`,
`COND = 0` (no flag-updating instruction has run yet). -/
def stateBr : VMState :=
  { memory := fun _ => 0
    registers := [0, 0, 0, 0, 0, 0, 0, 0, 0x3000, 0]
    running := true
    input := []
    output := [] }

/-- State after some flag-updating instruction: `PC = 0x3000`,
`COND = POSITIVE (1)`. -/
def stateBrPos : VMState :=
  { memory := fun _ => 0
    registers := [0, 0, 0, 0, 0, 0, 0, 0, 0x3000, 1]
    running := true
    input := []
    output := [] }

/-! ## Helper lemmas -/

/-- The `trap_puts` loop produces no bytes: its guard compares against
`MEMORY_SIZE as u16 = 0`. -/
theorem putsLoop_nil (m : Nat → Nat) (a : Nat) : putsLoop m a = [] := by
  rw [putsLoop]
  simp [memSizeU16, MEMORY_SIZE]

/-- The `trap_putsp` loop produces no bytes, for the same reason. -/
theorem putspLoop_nil (m : Nat → Nat) (a : Nat) : putspLoop m a = [] := by
  rw [putspLoop]
  simp [memSizeU16, MEMORY_SIZE]

/-- In a well-formed state every register index below 10 reads
successfully. -/
theorem regGet_total {s : VMState} (hs : WF s) {a : Nat} (ha : a < 10) :
    ∃ v, regGet s a = some v := by
  have hlen : a < s.registers.length := by
    unfold WF REGISTER_COUNT at hs
    omega
  exact ⟨s.registers.get ⟨a, hlen⟩, List.get?_eq_get hlen⟩

/-- In a well-formed state every register index below 10 writes
successfully, and the result is well formed. -/
theorem regSet_total {s : VMState} (hs : WF s) {a : Nat} (ha : a < 10) (v : Nat) :
    ∃ s', regSet s a v = some s' ∧ WF s' := by
  have hlen : a < s.registers.length := by
    unfold WF REGISTER_COUNT at hs
    omega
  refine ⟨_, by unfold regSet; rw [if_pos hlen], ?_⟩
  unfold WF REGISTER_COUNT at hs ⊢
  simpa [List.length_set] using hs

/-- In a well-formed state `update_flags` succeeds on every register
index below 10, preserving well-formedness. -/
theorem update_flags_total {s : VMState} (hs : WF s) {a : Nat} (ha : a < 10) :
    ∃ s', update_flags s a = some s' ∧ WF s' := by
  obtain ⟨v, hv⟩ := regGet_total hs ha
  obtain ⟨s', h1, h2⟩ :=
    regSet_total hs (show 9 < 10 by omega)
      (if v = 0 then 2 else if v >>> 15 = 1 then 4 else 1)
  refine ⟨s', ?_, h2⟩
  unfold update_flags
  rw [hv]
  exact h1

/-- A 3-bit-masked register field is a valid register index. -/
theorem and_mask3_lt (x : Nat) : x &&& mask 3 < 10 := by
  have h : x &&& mask 3 ≤ mask 3 := Nat.and_le_right
  have hm : mask 3 = 7 := rfl
  omega

/-- `liftStep` never produces the out-of-bounds panic from a successful
handler result. -/
theorem liftStep_ne_oob {o : Option VMState} (h : ∃ s, o = some s) :
    liftStep o ≠ StepResult.panicOob := by
  obtain ⟨s, rfl⟩ := h
  intro hc
  exact StepResult.noConfusion hc

/-- ADD never fails a register-file access in a well-formed state. -/
theorem add_opcode_total {s : VMState} (hs : WF s) (i : Nat) :
    ∃ s', add_opcode s i = some s' := by
  unfold add_opcode
  by_cases hf : (i >>> 5) &&& mask 1 = 1
  · obtain ⟨v1, hv1⟩ := regGet_total hs (and_mask3_lt (i >>> 6))
    obtain ⟨s1, hset, hwf1⟩ :=
      regSet_total hs (and_mask3_lt (i >>> 9)) ((v1 + sext (i &&& mask 5) 5) % 65536)
    obtain ⟨s2, hup, _⟩ := update_flags_total hwf1 (and_mask3_lt (i >>> 9))
    exact ⟨s2, by simp [hf, hv1, hset, hup]⟩
  · obtain ⟨v1, hv1⟩ := regGet_total hs (and_mask3_lt (i >>> 6))
    obtain ⟨v2, hv2⟩ := regGet_total hs (and_mask3_lt i)
    obtain ⟨s1, hset, hwf1⟩ :=
      regSet_total hs (and_mask3_lt (i >>> 9)) ((v1 + v2) % 65536)
    obtain ⟨s2, hup, _⟩ := update_flags_total hwf1 (and_mask3_lt (i >>> 9))
    exact ⟨s2, by simp [hf, hv1, hv2, hset, hup]⟩

/-- LDI never fails a register-file access in a well-formed state. -/
theorem ldi_opcode_total {s : VMState} (hs : WF s) (i : Nat) :
    ∃ s', ldi_opcode s i = some s' := by
  unfold ldi_opcode
  obtain ⟨pc, hpc⟩ := regGet_total hs (show 8 < 10 by omega)
  obtain ⟨s1, hset, hwf1⟩ :=
    regSet_total hs (and_mask3_lt (i >>> 9))
      (s.mem (s.mem ((sext (i &&& mask 9) 9 + pc) % 65536)))
  obtain ⟨s2, hup, _⟩ := update_flags_total hwf1 (and_mask3_lt (i >>> 9))
  exact ⟨s2, by simp [hpc, hset, hup]⟩

/-- BR never fails a register-file access in a well-formed state. -/
theorem br_opcode_total {s : VMState} (hs : WF s) (i : Nat) :
    ∃ s', br_opcode s i = some s' := by
  unfold br_opcode
  obtain ⟨c, hc⟩ := regGet_total hs (show 9 < 10 by omega)
  obtain ⟨pc, hpc⟩ := regGet_total hs (show 8 < 10 by omega)
  by_cases hcond : ((i >>> 9) &&& mask 3) &&& c ≠ 0
  · obtain ⟨s1, hset, _⟩ :=
      regSet_total hs (show 8 < 10 by omega) ((pc + sext (i &&& mask 9) 9) % 65536)
    exact ⟨s1, by simp [hc, hpc, hcond, hset]⟩
  · exact ⟨s, by simp [hc, hcond]⟩

/-- LD never fails a register-file access in a well-formed state. -/
theorem ld_opcode_total {s : VMState} (hs : WF s) (i : Nat) :
    ∃ s', ld_opcode s i = some s' := by
  unfold ld_opcode
  obtain ⟨pc, hpc⟩ := regGet_total hs (show 8 < 10 by omega)
  obtain ⟨s1, hset, hwf1⟩ :=
    regSet_total hs (and_mask3_lt (i >>> 9))
      (s.mem ((sext (i &&& mask 9) 9 + pc) % 65536))
  obtain ⟨s2, hup, _⟩ := update_flags_total hwf1 (and_mask3_lt (i >>> 9))
  exact ⟨s2, by simp [hpc, hset, hup]⟩

/-- LDR never fails a register-file access in a well-formed state. -/
theorem ldr_opcode_total {s : VMState} (hs : WF s) (i : Nat) :
    ∃ s', ldr_opcode s i = some s' := by
  unfold ldr_opcode
  obtain ⟨bv, hbv⟩ := regGet_total hs (and_mask3_lt (i >>> 6))
  obtain ⟨s1, hset, hwf1⟩ :=
    regSet_total hs (and_mask3_lt (i >>> 9))
      (s.mem ((bv + sext (i &&& mask 6) 6) % 65536))
  obtain ⟨s2, hup, _⟩ := update_flags_total hwf1 (and_mask3_lt (i >>> 9))
  exact ⟨s2, by simp [hbv, hset, hup]⟩

/-- LEA never fails a register-file access in a well-formed state. -/
theorem lea_opcode_total {s : VMState} (hs : WF s) (i : Nat) :
    ∃ s', lea_opcode s i = some s' := by
  unfold lea_opcode
  obtain ⟨pc, hpc⟩ := regGet_total hs (show 8 < 10 by omega)
  obtain ⟨s1, hset, hwf1⟩ :=
    regSet_total hs (and_mask3_lt (i >>> 9))
      ((pc + sext (i &&& mask 9) 9) % 65536)
  obtain ⟨s2, hup, _⟩ := update_flags_total hwf1 (and_mask3_lt (i >>> 9))
  exact ⟨s2, by simp [hpc, hset, hup]⟩

/-- ST never fails a register-file access in a well-formed state. -/
theorem st_opcode_total {s : VMState} (hs : WF s) (i : Nat) :
    ∃ s', st_opcode s i = some s' := by
  unfold st_opcode
  obtain ⟨pc, hpc⟩ := regGet_total hs (show 8 < 10 by omega)
  obtain ⟨v, hv⟩ := regGet_total hs (and_mask3_lt (i >>> 9))
  refine ⟨memWrite s ((pc + sext (i &&& mask 9) 9) % 65536) v, ?_⟩
  simp [hpc, hv]

/-- STI never fails a register-file access in a well-formed state. -/
theorem sti_opcode_total {s : VMState} (hs : WF s) (i : Nat) :
    ∃ s', sti_opcode s i = some s' := by
  unfold sti_opcode
  obtain ⟨pc, hpc⟩ := regGet_total hs (show 8 < 10 by omega)
  obtain ⟨v, hv⟩ := regGet_total hs (and_mask3_lt (i >>> 9))
  refine ⟨memWrite s (s.mem ((sext (i &&& mask 9) 9 + pc) % 65536)) v, ?_⟩
  simp [hpc, hv]

/-- STR never fails a register-file access in a well-formed state. -/
theorem str_opcode_total {s : VMState} (hs : WF s) (i : Nat) :
    ∃ s', str_opcode s i = some s' := by
  unfold str_opcode
  obtain ⟨bv, hbv⟩ := regGet_total hs (and_mask3_lt (i >>> 6))
  obtain ⟨v, hv⟩ := regGet_total hs (and_mask3_lt (i >>> 9))
  refine ⟨memWrite s ((bv + sext (i &&& mask 6) 6) % 65536) v, ?_⟩
  simp [hbv, hv]

/-- AND never fails a register-file access in a well-formed state. -/
theorem and_opcode_total {s : VMState} (hs : WF s) (i : Nat) :
    ∃ s', and_opcode s i = some s' := by
  unfold and_opcode
  by_cases hf : (i >>> 5) &&& mask 1 = 1
  · obtain ⟨v1, hv1⟩ := regGet_total hs (and_mask3_lt (i >>> 6))
    obtain ⟨s1, hset, hwf1⟩ :=
      regSet_total hs (and_mask3_lt (i >>> 9)) (v1 &&& sext (i &&& mask 5) 5)
    obtain ⟨s2, hup, _⟩ := update_flags_total hwf1 (and_mask3_lt (i >>> 9))
    exact ⟨s2, by simp [hf, hv1, hset, hup]⟩
  · obtain ⟨v1, hv1⟩ := regGet_total hs (and_mask3_lt (i >>> 6))
    obtain ⟨v2, hv2⟩ := regGet_total hs (and_mask3_lt i)
    obtain ⟨s1, hset, hwf1⟩ :=
      regSet_total hs (and_mask3_lt (i >>> 9)) (v1 &&& v2)
    obtain ⟨s2, hup, _⟩ := update_flags_total hwf1 (and_mask3_lt (i >>> 9))
    exact ⟨s2, by simp [hf, hv1, hv2, hset, hup]⟩

/-- NOT never fails a register-file access in a well-formed state. -/
theorem not_opcode_total {s : VMState} (hs : WF s) (i : Nat) :
    ∃ s', not_opcode s i = some s' := by
  unfold not_opcode
  obtain ⟨s1, hset, hwf1⟩ :=
    regSet_total hs (and_mask3_lt (i >>> 9)) (((i >>> 6) &&& mask 3) ^^^ 65535)
  obtain ⟨s2, hup, _⟩ := update_flags_total hwf1 (and_mask3_lt (i >>> 9))
  exact ⟨s2, by simp [hset, hup]⟩

/-- JMP never fails a register-file access in a well-formed state. -/
theorem jmp_opcodee_total {s : VMState} (hs : WF s) (i : Nat) :
    ∃ s', jmp_opcodee s i = some s' := by
  unfold jmp_opcodee
  obtain ⟨v, hv⟩ := regGet_total hs (and_mask3_lt (i >>> 6))
  obtain ⟨s1, hset, _⟩ := regSet_total hs (show 8 < 10 by omega) v
  exact ⟨s1, by simp [hv, hset]⟩

/-- JSR never fails a register-file access in a well-formed state. -/
theorem jsr_opcode_total {s : VMState} (hs : WF s) (i : Nat) :
    ∃ s', jsr_opcode s i = some s' := by
  unfold jsr_opcode
  obtain ⟨pc, hpc⟩ := regGet_total hs (show 8 < 10 by omega)
  obtain ⟨s1, hset, hwf1⟩ := regSet_total hs (show 7 < 10 by omega) pc
  by_cases hm : (i >>> 11) &&& mask 1 = 1
  · obtain ⟨pc1, hpc1⟩ := regGet_total hwf1 (show 8 < 10 by omega)
    obtain ⟨s2, hset2, _⟩ :=
      regSet_total hwf1 (show 8 < 10 by omega) ((pc1 + sext (i &&& mask 11) 11) % 65536)
    exact ⟨s2, by simp [hpc, hset, hm, hpc1, hset2]⟩
  · obtain ⟨bv, hbv⟩ := regGet_total hwf1 (and_mask3_lt (i >>> 6))
    obtain ⟨s2, hset2, _⟩ := regSet_total hwf1 (show 8 < 10 by omega) bv
    exact ⟨s2, by simp [hpc, hset, hm, hbv, hset2]⟩

/-- OUT never fails a register-file access in a well-formed state. -/
theorem trap_out_total {s : VMState} (hs : WF s) :
    ∃ s', trap_out s = some s' := by
  unfold trap_out
  obtain ⟨v, hv⟩ := regGet_total hs (show 0 < 10 by omega)
  refine ⟨{ s with output := s.output ++ [v &&& 255, 10] }, ?_⟩
  simp [hv]

/-- PUTS never fails a register-file access in a well-formed state. -/
theorem trap_puts_total {s : VMState} (hs : WF s) :
    ∃ s', trap_puts s = some s' := by
  unfold trap_puts
  obtain ⟨v, hv⟩ := regGet_total hs (show 0 < 10 by omega)
  refine ⟨{ s with output := s.output ++ putsLoop s.memory v }, ?_⟩
  simp [hv]

/-- PUTSP never fails a register-file access in a well-formed state. -/
theorem trap_putsp_total {s : VMState} (hs : WF s) :
    ∃ s', trap_putsp s = some s' := by
  unfold trap_putsp
  obtain ⟨v, hv⟩ := regGet_total hs (show 0 < 10 by omega)
  refine ⟨{ s with output := s.output ++ putspLoop s.memory v }, ?_⟩
  simp [hv]

/-- GETC never raises the register-index panic in a well-formed state. -/
theorem trap_get_c_ne_oob {s : VMState} (hs : WF s) :
    trap_get_c s ≠ StepResult.panicOob := by
  unfold trap_get_c
  match hin : s.input with
  | [] => intro hc; exact StepResult.noConfusion hc
  | [b] => intro hc; exact StepResult.noConfusion hc
  | b0 :: b1 :: rest =>
    have hs1 : WF { s with input := rest } := hs
    obtain ⟨s1, hset, hwf1⟩ := regSet_total hs1 (show 0 < 10 by omega) b0
    obtain ⟨s2, hup, _⟩ := update_flags_total hwf1 (show 0 < 10 by omega)
    apply liftStep_ne_oob
    exact ⟨s2, by simp [hset, hup]⟩

/-- IN never raises the register-index panic in a well-formed state. -/
theorem trap_in_ne_oob {s : VMState} (hs : WF s) :
    trap_in s ≠ StepResult.panicOob := by
  unfold trap_in
  match hin : s.input with
  | [] => intro hc; exact StepResult.noConfusion hc
  | b :: rest =>
    have hs1 : WF { s with output := s.output ++ promptBytes, input := rest } := hs
    obtain ⟨s1, hset, _⟩ := regSet_total hs1 (show 0 < 10 by omega) b
    exact liftStep_ne_oob ⟨s1, hset⟩

/-- Trap dispatch never raises the register-index panic in a
well-formed state. -/
theorem trap_opcode_ne_oob {s : VMState} (hs : WF s) (i : Nat) :
    trap_opcode s i ≠ StepResult.panicOob := by
  unfold trap_opcode
  split
  · exact trap_get_c_ne_oob hs
  · exact liftStep_ne_oob (trap_out_total hs)
  · exact liftStep_ne_oob (trap_puts_total hs)
  · exact trap_in_ne_oob hs
  · exact liftStep_ne_oob (trap_putsp_total hs)
  · intro hc; exact StepResult.noConfusion hc
  · intro hc; exact StepResult.noConfusion hc

/-- Instruction dispatch never raises the register-index panic in a
well-formed state: every register index any handler passes to the
register file is below 10. -/
theorem execute_ne_oob {s : VMState} (hs : WF s) (i : Nat) :
    execute s i ≠ StepResult.panicOob := by
  unfold execute
  split
  · exact liftStep_ne_oob (br_opcode_total hs i)
  · exact liftStep_ne_oob (add_opcode_total hs i)
  · exact liftStep_ne_oob (ld_opcode_total hs i)
  · exact liftStep_ne_oob (st_opcode_total hs i)
  · exact liftStep_ne_oob (jsr_opcode_total hs i)
  · exact liftStep_ne_oob (and_opcode_total hs i)
  · exact liftStep_ne_oob (ldr_opcode_total hs i)
  · exact liftStep_ne_oob (str_opcode_total hs i)
  · intro hc; exact StepResult.noConfusion hc
  · exact liftStep_ne_oob (not_opcode_total hs i)
  · exact liftStep_ne_oob (ldi_opcode_total hs i)
  · exact liftStep_ne_oob (sti_opcode_total hs i)
  · exact liftStep_ne_oob (jmp_opcodee_total hs i)
  · intro hc; exact StepResult.noConfusion hc
  · exact liftStep_ne_oob (lea_opcode_total hs i)
  · exact trap_opcode_ne_oob hs i

/-- A full fetch–increment–dispatch cycle never raises the
register-index panic in a well-formed state. -/
theorem step_ne_oob {s : VMState} (hs : WF s) :
    step s ≠ StepResult.panicOob := by
  unfold step
  obtain ⟨pc, hpc⟩ := regGet_total hs (show 8 < 10 by omega)
  obtain ⟨s1, hset, hwf1⟩ := regSet_total hs (show 8 < 10 by omega) ((pc + 1) % 65536)
  simp only [hpc, hset]
  exact execute_ne_oob hwf1 (s.mem pc)

/-! ## Claim theorems -/

/-- C1: the NOT handler, as written, stores the bitwise complement of
the *register index* `sr = 1`, namely `0xFFFE = 65534`, into `R0` —
not the complement of the register's contents `R1 = 0x1234 = 4660`,
which would be `4660 ^^^ 65535 = 0xEDCB`.  The instruction `0x907F` is
`NOT R0, R1`; flags are then set from the stored `0xFFFE` (NEG = 4). -/
theorem C1_not_negates_index :
    (execute stateNot 0x907F).okState.map
        (fun st => (st.registers.getD 0 0, st.registers.getD 9 0)) =
      some (65534, 4) ∧
    stateNot.registers.getD 1 0 = 4660 ∧
    (65534 : Nat) ≠ 4660 ^^^ 65535 := by
  refine ⟨rfl, rfl, by decide⟩

/-- C2: executing TRAP 0x22 (PUTS) in the spec's own scenario
(`R0 = 0x3000`, `MEM[0x3000..] = 'H', 'i', 0`) writes nothing at all to
the console: the loop guard `mem_addr < MEMORY_SIZE as u16` compares
against the truncated bound 0, so the loop body never runs and the
output stays empty instead of being "Hi" = [72, 105]. -/
theorem C2_puts_writes_nothing :
    (execute statePuts 0xF022).okState.map (fun st => st.output) = some [] ∧
    statePuts.mem 0x3000 = 72 ∧ statePuts.mem 0x3001 = 105 ∧
    statePuts.mem 0x3002 = 0 ∧ statePuts.registers.getD 0 0 = 0x3000 := by
  have h : putsLoop statePuts.memory 12288 = [] := putsLoop_nil _ _
  refine ⟨?_, rfl, rfl, rfl, rfl⟩
  have he : execute statePuts 0xF022 =
      StepResult.ok
        { statePuts with
          output := statePuts.output ++ putsLoop statePuts.memory 12288 } := rfl
  rw [he, h]
  rfl

/-- C3: executing TRAP 0x23 (IN) with `COND = ZERO (2)` and pending
console byte 65 stores 65 in `R0` but leaves `COND = 2`, violating the
flag invariant (65 is positive, so `COND` should become `POS = 1`), and
writes only the prompt to the console — the read byte is not echoed. -/
theorem C3_trap_in_skips_flags_and_echo :
    (execute stateIn 0xF023).okState.map
        (fun st => (st.registers.getD 0 0, st.registers.getD 9 0, st.output)) =
      some (65, 2, promptBytes) ∧
    (2 : Nat) ≠ 1 := by
  refine ⟨rfl, by decide⟩

/-- C4: a memory read of address `MR_KBSR = 0xFE00` is a plain array
lookup with no keyboard polling: executing `LD R0, #0` at `PC = 0xFE00`
with a key (byte 65) pending loads the stale cell value 0, leaves
`MEM[0xFE00]` at 0 (not 0x8000), leaves `MEM[0xFE02]` unpopulated, and
does not consume the pending byte. -/
theorem C4_kbsr_read_does_not_poll :
    (execute stateKbsr 0x2000).okState.map
        (fun st => (st.registers.getD 0 0, st.mem MR_KBSR, st.mem MR_KBDR,
                    st.input)) =
      some (0, 0, 0, [65]) := by
  rfl

/-- C5 (counterexample): executing TRAP 0x25 (HALT) does not set the
running flag to false and return to the loop — the handler calls
`std::process::exit(0)`, so the step yields an `exit 0` result carrying
the state with `running` still `true`, and no `ok` continuation state
exists. -/
theorem C5_halt_counterexample :
    execute stateHalt 0xF025 = StepResult.exit 0 stateHalt ∧
    stateHalt.running = true ∧
    (execute stateHalt 0xF025).okState = none := by
  exact ⟨rfl, rfl, rfl⟩

/-- C5 (amended): executing TRAP 0x25 (HALT) terminates the process
immediately from inside the handler with exit code 0, leaving the
machine state — memory, registers and the `running` flag — exactly as
it was when the handler was entered. -/
theorem C5_halt_exits_process (s : VMState) (instruction : Nat)
    (hop : instruction >>> 12 = 15) (hcode : instruction &&& mask 8 = 0x25) :
    execute s instruction = StepResult.exit 0 s := by
  unfold execute trap_opcode
  rw [hop, hcode]
  rfl

/-- C5 (witness): the amended HALT theorem at the concrete instruction
`0xF025` in the concrete mid-run state. -/
theorem C5_halt_witness :
    execute stateHalt 0xF025 = StepResult.exit 0 stateHalt :=
  C5_halt_exits_process stateHalt 0xF025 (by decide) (by decide)

/-- C6 (counterexample): the loader succeeds on the odd-length byte
stream `[0x30, 0x00, 0xF0]` (origin 0x3000, trailing byte silently
dropped), yet fails on the even-length empty stream and on the single
byte `[0x30]`: success is not equivalent to ending on a word boundary. -/
theorem C6_loader_counterexample :
    load [48, 0, 240] = some (12288, []) ∧
    load [] = none ∧ load [48] = none := by
  refine ⟨rfl, rfl, rfl⟩

/-- C6 (amended): the loader aborts (unwrap panic, non-zero exit)
exactly when the stream has fewer than the two bytes of the origin
word; any longer stream loads successfully — `read_exact` reports the
same `UnexpectedEof` for a clean end of stream and for a trailing odd
byte, and the load loop treats both as success, discarding the odd
byte. -/
theorem C6_loader_succeeds_iff_origin_complete :
    (∀ bytes : List Nat, (load bytes).isSome ↔ 2 ≤ bytes.length) ∧
    ∀ b : Nat, loadWords [b] = [] := by
  constructor
  · intro bytes
    match bytes with
    | [] => simp [load, read_u16]
    | [b] => simp [load, read_u16]
    | b1 :: b2 :: rest =>
      simp only [load, read_u16, Option.isSome_some, List.length_cons]
      constructor
      · intro _; omega
      · intro _; rfl
  · intro b
    rfl

/-- C7: the handlers' 16-bit additions use the plain Rust `+`, whose
overflow-checked (default debug-profile) semantics aborts instead of
wrapping: executing `ADD R2, R3, R4` (instruction 0x14C4) with
`R3 = 0xFFFF` and `R4 = 1` aborts under the checked embedding, while
the wrapping (release codegen) embedding yields the wrapped result
`R2 = 0` — the claim's "no trap for all operand values" fails for the
code as written. -/
theorem C7_add_overflow_aborts_when_checked :
    add_opcode_checked stateAddOvf 0x14C4 = none ∧
    (execute stateAddOvf 0x14C4).okState.map
        (fun st => st.registers.getD 2 0) = some 0 ∧
    stateAddOvf.registers.getD 3 0 = 65535 ∧
    stateAddOvf.registers.getD 4 0 = 1 := by
  exact ⟨rfl, rfl, rfl, rfl⟩

/-- C8 (counterexample): `mask(16)` is not defined under the checked
shift semantics (`1u16 << 16` aborts), and `sext(0x8000, 16)` aborts as
well (`0xffff << 16`), so neither "mask is defined for n ∈ 1..=16" nor
"sext(v, 16) = v for every 16-bit v" holds. -/
theorem C8_mask16_counterexample :
    maskChecked 16 = none ∧ sextChecked 0x8000 16 = none ∧
    (0x8000 : Nat) < 65536 := by
  refine ⟨rfl, rfl, by decide⟩

/-- C8 (amended): `mask(n)` is defined and equals `(1 << n) - 1` for
`1 ≤ n ≤ 15`; `sext` has the correct extremes at width 1
(`sext(1, 1) = 0xFFFF`, `sext(0, 1) = 0`); and at width 16,
`sext(v, 16) = v` holds exactly for the 16-bit values whose bit 15 is
clear (`v < 0x8000`) — for the rest the shift aborts. -/
theorem C8_mask_sext_bounded :
    (∀ n : Nat, 1 ≤ n → n ≤ 15 → maskChecked n = some ((1 <<< n) - 1)) ∧
    (sextChecked 1 1 = some 0xFFFF ∧ sextChecked 0 1 = some 0) ∧
    (∀ v : Nat, v < 65536 → (sextChecked v 16 = some v ↔ v < 32768)) := by
  refine ⟨?_, ⟨rfl, rfl⟩, ?_⟩
  · intro n h1 h2
    unfold maskChecked
    rw [if_pos (by omega)]
  · intro v hv
    have hs : v >>> 15 = v / 32768 := by
      rw [Nat.shiftRight_eq_div_pow]
    by_cases h : v < 32768
    · have h0 : v >>> 15 = 0 := by rw [hs]; omega
      simp [sextChecked, h0, h]
    · have h1 : v >>> 15 = 1 := by
        rw [hs]
        exact Nat.div_eq_of_lt_le (by omega) (by omega)
      simp [sextChecked, h1, h]

/-- C8 (witness): the amended theorem at `n = 3` and `v = 5`. -/
theorem C8_mask_sext_witness :
    maskChecked 3 = some 7 ∧ (sextChecked 5 16 = some 5 ↔ 5 < 32768) :=
  ⟨C8_mask_sext_bounded.1 3 (by decide) (by decide),
   C8_mask_sext_bounded.2.2 5 (by decide)⟩

/-- C9 (counterexample): in the initial machine state after loading
(`COND = 0`, here with `PC = 0x3000`), the instruction `0x0E05` — a BR
with `nzp = 0b111` and offset 5 — does not branch: `0b111 & 0 = 0`, so
`PC` stays `0x3000` instead of becoming `0x3005`. -/
theorem C9_br_initial_state_counterexample :
    (br_opcode stateBr 0x0E05).map (fun st => st.registers.getD 8 0) =
      some 0x3000 ∧
    (0x0E05 : Nat) >>> 9 &&& mask 3 = 7 ∧
    sext (0x0E05 &&& mask 9) 9 = 5 ∧
    stateBr.registers.getD 9 0 = 0 := by
  refine ⟨rfl, by decide, by decide, rfl⟩

/-- C9 (amended): a BR with `nzp = 0b111` branches in every well-formed
state whose `COND` holds one of the three flag values {1, 2, 4} — that
is, in every state after the first flag-updating instruction — setting
`PC` to the wrapped `PC + offset`; only in states with `COND = 0`, such
as the initial state, does it fall through. -/
theorem C9_br_nzp7_branches (s : VMState) (c pc instruction : Nat)
    (hc : regGet s 9 = some c) (hflag : c = 1 ∨ c = 2 ∨ c = 4)
    (hpc : regGet s 8 = some pc)
    (hnzp : (instruction >>> 9) &&& mask 3 = 7) :
    br_opcode s instruction =
      regSet s 8 ((pc + sext (instruction &&& mask 9) 9) % 65536) := by
  unfold br_opcode
  rw [hnzp, hc, hpc]
  have h7 : (7 : Nat) &&& c ≠ 0 := by
    rcases hflag with h | h | h <;> subst h <;> decide
  simp [h7]

/-- C9 (witness): the amended BR theorem in the concrete state with
`COND = POSITIVE (1)` and `PC = 0x3000`, at instruction `0x0E05`. -/
theorem C9_br_nzp7_witness :
    br_opcode stateBrPos 0x0E05 =
      regSet stateBrPos 8 ((0x3000 + sext (0x0E05 &&& mask 9) 9) % 65536) :=
  C9_br_nzp7_branches stateBrPos 1 0x3000 0x0E05 rfl (Or.inl rfl) rfl (by decide)

/-- C10: in every well-formed machine state (register file of length
`REGISTER_COUNT = 10`) no access during the execution of any
instruction is out of bounds: every 16-bit address is a valid index
into the `MEMORY_SIZE = 2^16`-cell memory, and neither the dispatch of
any instruction word nor a full fetch–increment–dispatch cycle can
produce the register-file index panic — all decoded register fields are
3-bit-masked (< 8) and the only other indices used are R0 = 0, R7 = 7,
PC = 8 and COND = 9. -/
theorem C10_no_out_of_bounds_access :
    ∀ s : VMState, WF s →
      (∀ a : Nat, a < 65536 → a < MEMORY_SIZE) ∧
      (∀ instruction : Nat,
        execute s instruction ≠ StepResult.panicOob) ∧
      step s ≠ StepResult.panicOob := by
  intro s hs
  refine ⟨?_, fun i => execute_ne_oob hs i, step_ne_oob hs⟩
  intro a ha
  unfold MEMORY_SIZE
  omega

/-- C10 (witness): the bounds theorem at the initial machine state, at
the keyboard-status address and the concrete instruction 0x907F. -/
theorem C10_no_out_of_bounds_witness :
    (0xFE00 : Nat) < MEMORY_SIZE ∧
    execute initState 0x907F ≠ StepResult.panicOob ∧
    step initState ≠ StepResult.panicOob :=
  ⟨(C10_no_out_of_bounds_access initState rfl).1 0xFE00 (by decide),
   (C10_no_out_of_bounds_access initState rfl).2.1 0x907F,
   (C10_no_out_of_bounds_access initState rfl).2.2⟩

end LC3
